import Mathlib

/-!
Verification of the JSON-response decoding layer and the HTTP URL building of
the mighty-grpc gateway (src/services/clients/json_response_converters.rs and
src/services/clients/rest.rs), via a shallow embedding of serde_json values
and the converter functions.

Floating-point numbers: no claim depends on IEEE arithmetic or rounding, only
on which JSON entries appear in a response and in what order.  A JSON number is
therefore modelled by its exact content (`JNum`): an `i64`/`u64` arm carrying
the integer, or an `f64` arm identified by its shortest textual rendering (the
string serde_json prints for it).  The `f64 -> f32` casts in the source, which
are claim-irrelevant, carry the number through unchanged.
-/

/-- A serde_json number: the integer arms (`u64`/`i64`) carry the integer,
the `f64` arm is identified by its textual rendering. -/
inductive JNum where
  | int : Int → JNum
  | float : String → JNum
deriving DecidableEq, Repr

/-- A serde_json `Value`. Objects are association lists in insertion order;
serde_json maps have unique keys, reflected as a hypothesis where needed. -/
inductive Json where
  | null : Json
  | bool : Bool → Json
  | num : JNum → Json
  | str : String → Json
  | arr : List Json → Json
  | obj : List (String × Json) → Json

/-- Models `Value::get(key)` on an object; `None` on every other variant. -/
def Json.get (j : Json) (key : String) : Option Json :=
  match j with
  | .obj fields => fields.lookup key
  | _ => none

/-- Models `Value::as_array`. -/
def Json.asArray : Json → Option (List Json)
  | .arr xs => some xs
  | _ => none

/-- Models `Value::as_str`. -/
def Json.asStr : Json → Option String
  | .str s => some s
  | _ => none

/-- Models `Value::is_array`. -/
def Json.isArr : Json → Bool
  | .arr _ => true
  | _ => false

/-- Models `Value::is_string`. -/
def Json.isStr : Json → Bool
  | .str _ => true
  | _ => false

/-- Models `Value::is_object`. -/
def Json.isObj : Json → Bool
  | .obj _ => true
  | _ => false

/-- Models `Value::as_f64`: defined for every number (both integer arms convert). -/
def Json.asF64 : Json → Option JNum
  | .num n => some n
  | _ => none

/-- Models `Value::as_i64`: the integer arm when it fits in `i64`; `None` on the
`f64` arm and on non-numbers. -/
def Json.asI64 : Json → Option Int
  | .num (.int i) => if -(2 ^ 63) ≤ i ∧ i < 2 ^ 63 then some i else none
  | _ => none

/-- Models `Value::as_u64`: the integer arm when it fits in `u64`. -/
def Json.asU64 : Json → Option Int
  | .num (.int i) => if 0 ≤ i ∧ i < 2 ^ 64 then some i else none
  | _ => none

/-- Models Rust's wrapping `as i32` cast from a wider integer. -/
def toI32 (i : Int) : Int := (i + 2 ^ 31) % 2 ^ 32 - 2 ^ 31

/-- Models `f64::default()` (`0.0`), the value `unwrap_or_default` substitutes. -/
def f64Default : JNum := .float "0.0"

/-! ## The proto response types (message fields of mighty_inference.proto,
with `i32` fields as `Int` produced by the wrapping cast and `f32` fields
as `JNum` as explained above). -/

structure Embedding where
  values : List JNum
deriving DecidableEq, Repr

structure Shape where
  dim1 : Int
  dim2 : Int
deriving DecidableEq, Repr

structure EmbeddingsResponse where
  embeddings : List Embedding
  took : Int
  text : String
  shape : Option Shape
deriving DecidableEq, Repr

structure SentenceTransformersResponse where
  embeddings : List Embedding
  took : Int
  text : String
  shape : Option Shape
deriving DecidableEq, Repr

structure SequenceClassificationResponse where
  text : String
  logits : List JNum
  took : Int
  shape : Option Shape
deriving DecidableEq, Repr

structure Entity where
  id : String
  label : String
  text : String
  score : JNum
  start_offset : Int
  end_offset : Int
deriving DecidableEq, Repr

structure TokenClassificationResponse where
  took : Int
  text : String
  entities : List Entity
  shape : Option Shape
deriving DecidableEq, Repr

structure QuestionAnswerResponse where
  answer : String
  start_idx : Int
  end_idx : Int
  question : String
  context : String
  took : Int
deriving DecidableEq, Repr

structure MetadataResponse where
  metadata : List (String × String)
deriving DecidableEq, Repr

structure HealthcheckResponse where
  success : Bool
deriving DecidableEq, Repr

/-! ## The shared extraction helpers of json_response_converters.rs. -/

/-- Models `extract_string_value`: `json.get(key).and_then(as_str).unwrap_or_default()`. -/
def extract_string_value (json : Json) (key : String) : String :=
  ((json.get key).bind Json.asStr).getD ""

/-- Models `extract_took`: `json.get("took").and_then(as_i64).unwrap_or_default() as i32`. -/
def extract_took (json : Json) : Int :=
  toI32 (((json.get "took").bind Json.asI64).getD 0)

/-- Models `extract_shape`: `json.get("shape").and_then(as_array).map(|array| Shape { .. })`
with each dim `array.get(i).and_then(as_i64).unwrap_or_default() as i32`. -/
def extract_shape (json : Json) : Option Shape :=
  ((json.get "shape").bind Json.asArray).map fun array =>
    { dim1 := toI32 (((array[0]?).bind Json.asI64).getD 0)
      dim2 := toI32 (((array[1]?).bind Json.asI64).getD 0) }

/-- The per-element closure of the `outputs` decode:
`Embedding { values: arr.as_array().unwrap_or(&EMPTY_VEC).iter().map(|v| v.as_f64().unwrap_or_default() as f32).collect() }`. -/
def json_to_embedding (arr : Json) : Embedding :=
  { values := ((arr.asArray).getD []).map fun v => (v.asF64).getD f64Default }

/-- Models `json_to_embeddings_response`. -/
def json_to_embeddings_response (json : Json) : Except String EmbeddingsResponse :=
  .ok
    { embeddings := (((json.get "outputs").bind Json.asArray).getD []).map json_to_embedding
      took := extract_took json
      text := extract_string_value json "text"
      shape := extract_shape json }

/-- Models `json_to_sentence_transformers_response` (same body as the embeddings one,
building a `SentenceTransformersResponse`). -/
def json_to_sentence_transformers_response (json : Json) :
    Except String SentenceTransformersResponse :=
  .ok
    { embeddings := (((json.get "outputs").bind Json.asArray).getD []).map json_to_embedding
      took := extract_took json
      text := extract_string_value json "text"
      shape := extract_shape json }

/-- The flattening in `json_to_sequence_classification_response`:
`flat_map(|inner_array| inner_array.as_array().unwrap_or(&EMPTY_VEC))` then
`map(|v| v.as_f64().unwrap_or_default() as f32)`. -/
def flatten_logits (rows : List Json) : List JNum :=
  ((rows.map fun inner => (inner.asArray).getD []).flatten).map fun v =>
    (v.asF64).getD f64Default

/-- Models `json_to_sequence_classification_response`. -/
def json_to_sequence_classification_response (json : Json) :
    Except String SequenceClassificationResponse :=
  .ok
    { text := extract_string_value json "text"
      logits := flatten_logits (((json.get "logits").bind Json.asArray).getD [])
      took := extract_took json
      shape := extract_shape json }

/-- The per-entity closure of `json_to_token_classification_response`. -/
def json_to_entity (value : Json) : Entity :=
  { id := extract_string_value value "id"
    label := extract_string_value value "label"
    text := extract_string_value value "text"
    score := (((value.get "score").bind Json.asF64).map id).getD f64Default
    start_offset :=
      toI32 ((((value.get "offsets").bind fun offsets =>
        (offsets.asArray).bind fun arr => (arr[0]?).bind Json.asI64)).getD 0)
    end_offset :=
      toI32 ((((value.get "offsets").bind fun offsets =>
        (offsets.asArray).bind fun arr => (arr[1]?).bind Json.asI64)).getD 0) }

/-- Models `json_to_token_classification_response`. -/
def json_to_token_classification_response (json : Json) :
    Except String TokenClassificationResponse :=
  .ok
    { took := extract_took json
      text := extract_string_value json "text"
      entities := (((json.get "entities").bind Json.asArray).getD []).map json_to_entity
      shape := extract_shape json }

/-- Models `json_to_question_answer_response`. -/
def json_to_question_answer_response (json : Json) (question context : String) :
    Except String QuestionAnswerResponse :=
  .ok
    { answer := extract_string_value json "answer"
      start_idx := toI32 (((json.get "start_idx").bind Json.asU64).getD 0)
      end_idx := toI32 (((json.get "end_idx").bind Json.asU64).getD 0)
      question := question
      context := context
      took := extract_took json }

example :
    json_to_embeddings_response (.obj [("outputs", .arr [.arr [.num (.int 1), .str "x"]])]) =
      .ok { embeddings := [⟨[.int 1, f64Default]⟩], took := 0, text := "", shape := none } := by
  rfl

example : extract_shape (.obj [("shape", .arr [.num (.int 1), .num (.int 3)])]) =
    some { dim1 := 1, dim2 := 3 } := by rfl

example : (json_to_entity (.obj [("offsets", .arr [.num (.int 2147483648), .num (.int 7)])])).start_offset
    = -2147483648 := by rfl

/-! ## serde_json compact serialization (`Value::to_string`), used by the
metadata decode. Strings are escaped exactly as serde_json does: quote and
backslash, the short escapes for BS/TAB/LF/FF/CR, `\u00XX` (lowercase hex)
for the remaining control characters, everything else verbatim. -/

/-- Lowercase hexadecimal digit, as in serde_json's escape table. -/
def hexDigitLower (n : Nat) : Char :=
  if n < 10 then Char.ofNat (48 + n) else Char.ofNat (87 + n)

/-- The escape of one character inside a JSON string literal. -/
def escapeJsonChar (c : Char) : List Char :=
  if c = '"' then ['\\', '"']
  else if c = '\\' then ['\\', '\\']
  else if c.toNat = 8 then ['\\', 'b']
  else if c.toNat = 9 then ['\\', 't']
  else if c.toNat = 10 then ['\\', 'n']
  else if c.toNat = 12 then ['\\', 'f']
  else if c.toNat = 13 then ['\\', 'r']
  else if c.toNat < 32 then
    ['\\', 'u', '0', '0', hexDigitLower (c.toNat / 16), hexDigitLower (c.toNat % 16)]
  else [c]

/-- A JSON string literal: escaped content between double quotes. -/
def quoteJson (s : String) : String :=
  "\"" ++ ((s.toList.map escapeJsonChar).flatten).asString ++ "\""

mutual

/-- Models serde_json's `Value::to_string` (the compact `Display` rendering:
no whitespace around separators). -/
def serialize : Json → String
  | .null => "null"
  | .bool true => "true"
  | .bool false => "false"
  | .num (.int i) => toString i
  | .num (.float s) => s
  | .str s => quoteJson s
  | .arr xs => "[" ++ serializeElems xs ++ "]"
  | .obj fs => "\x7b" ++ serializeFields fs ++ "\x7d"

/-- Array elements joined by commas. -/
def serializeElems : List Json → String
  | [] => ""
  | [x] => serialize x
  | x :: y :: xs => serialize x ++ "," ++ serializeElems (y :: xs)

/-- Object fields joined by commas, each `"key":value`. -/
def serializeFields : List (String × Json) → String
  | [] => ""
  | [(k, v)] => quoteJson k ++ ":" ++ serialize v
  | (k, v) :: f :: fs => quoteJson k ++ ":" ++ serialize v ++ "," ++ serializeFields (f :: fs)

end

/-- Models `str::replace(", ", ",")` as the source applies it to serialized
arrays: left-to-right replacement of non-overlapping occurrences. -/
def replaceCommaSpaceChars : List Char → List Char
  | [] => []
  | ',' :: ' ' :: rest => ',' :: replaceCommaSpaceChars rest
  | c :: rest => c :: replaceCommaSpaceChars rest

/-- String version of `replaceCommaSpaceChars`. -/
def replaceCommaSpace (s : String) : String :=
  (replaceCommaSpaceChars s.toList).asString

/-- The per-value rendering inside `json_to_metadata_response`:
arrays are `v.to_string().replace(", ", ",")`, strings are
`v.as_str().unwrap().to_string()`, everything else `v.to_string()`. -/
def metadata_value_string (v : Json) : String :=
  if v.isArr then replaceCommaSpace (serialize v)
  else if v.isStr then (v.asStr).getD ""
  else serialize v

/-- Models `json_to_metadata_response`: requires an object, then renders every
value to a string. (The source collects into a `HashMap`; with serde_json's
unique keys this is the same key/value mapping, kept here in insertion order.) -/
def json_to_metadata_response (json : Json) : Except String MetadataResponse :=
  match json with
  | .obj fields =>
      .ok { metadata := fields.map fun kv => (kv.1, metadata_value_string kv.2) }
  | _ => .error "Failed to parse metadata JSON as object"

/-! ## The URL building of MightyServerRestClient (rest.rs), one `format!`
string per operation; request strings are interpolated as-is. -/

/-- Models the URL of `health_check`. -/
def healthcheck_url (base_url : String) : String :=
  base_url ++ "/healthcheck"

/-- Models the URL of `embeddings`. -/
def embeddings_url (base_url text : String) : String :=
  base_url ++ "/embeddings?text=" ++ text

/-- Models the URL of `question_answering`. -/
def question_answering_url (base_url question context : String) : String :=
  base_url ++ "/question-answering?question=" ++ question ++ "&context=" ++ context

/-- Models the URL of `sentence_transformers`. -/
def sentence_transformers_url (base_url text : String) : String :=
  base_url ++ "/sentence-transformers?text=" ++ text

/-- Models the URL of `sequence_classification`. -/
def sequence_classification_url (base_url text : String) : String :=
  base_url ++ "/sequence-classification?text=" ++ text

/-- Models the URL of `token_classification`. -/
def token_classification_url (base_url text : String) : String :=
  base_url ++ "/token-classification?text=" ++ text

/-- Models the URL of `metadata`. -/
def metadata_url (base_url : String) : String :=
  base_url ++ "/metadata"

/-- The outcome of `client.get(url).send().await`: a transport failure, or a
response with a status code and a body. -/
inductive HttpResult where
  | failure : String → HttpResult
  | response : Nat → String → HttpResult

/-- Models `health_check` of MightyServerRestClient as a function of the HTTP
outcome: transport failure maps to an error, status 200 to `success = true`,
any other status to the error "Healthcheck failed"; the body is never read. -/
def health_check : HttpResult → Except String HealthcheckResponse
  | .failure e => .error ("HTTP request error: " ++ e)
  | .response status _body =>
      if status = 200 then .ok { success := true } else .error "Healthcheck failed"

/-! ## Percent-encoding, modelled from the spec for claim C4.
No encoding function exists anywhere in the source. -/

/-- Uppercase hexadecimal digit for percent escapes. -/
def hexDigitUpper (n : Nat) : Char :=
  if n < 10 then Char.ofNat (48 + n) else Char.ofNat (55 + n)

/-- The UTF-8 bytes of a character, by code-point arithmetic. -/
def utf8ByteList (c : Char) : List Nat :=
  let n := c.toNat
  if n < 0x80 then [n]
  else if n < 0x800 then [0xC0 + n / 0x40, 0x80 + n % 0x40]
  else if n < 0x10000 then
    [0xE0 + n / 0x1000, 0x80 + (n / 0x40) % 0x40, 0x80 + n % 0x40]
  else
    [0xF0 + n / 0x40000, 0x80 + (n / 0x1000) % 0x40, 0x80 + (n / 0x40) % 0x40, 0x80 + n % 0x40]

/-- An unreserved URL character (RFC 3986), kept verbatim by percent-encoding. -/
def isUrlUnreserved (c : Char) : Bool :=
  c.isAlphanum || c = '-' || c = '_' || c = '.' || c = '~'

/-- Modelled from the spec: the "percent-encoded form" of a request string
("URL-encoded query parameters", spec section 4.3) — every character outside
the unreserved set becomes `%XX` escapes of its UTF-8 bytes. The source has no
such function; this is the spec-side definition claim C4 compares against. -/
def percentEncode (s : String) : String :=
  String.join (s.toList.map fun c =>
    if isUrlUnreserved c then String.singleton c
    else String.join ((utf8ByteList c).map fun b =>
      "%" ++ ([hexDigitUpper (b / 16), hexDigitUpper (b % 16)] : List Char).asString))

example : percentEncode "a&b" = "a%26b" := by rfl
example : percentEncode "a b" = "a%20b" := by rfl
example : serialize (.arr [.str "a, b", .num (.int 3)]) = "[\"a, b\",3]" := by rfl
example : metadata_value_string (.arr [.str "input_ids", .str "attention_mask"]) =
    "[\"input_ids\",\"attention_mask\"]" := by rfl

/-! ## Helper lemmas. -/

/-- On the 32-bit signed range the wrapping cast is the identity. -/
theorem toI32_eq_self {i : Int} (h1 : -(2 ^ 31) ≤ i) (h2 : i < 2 ^ 31) : toI32 i = i := by
  unfold toI32
  have hmod : (i + 2 ^ 31) % 2 ^ 32 = i + 2 ^ 31 :=
    Int.emod_eq_of_lt (by omega) (by omega)
  omega

/-- A 32-bit-range integer is in particular an `i64`, so `as_i64` returns it. -/
theorem asI64_int_of_small {a : Int} (h1 : -(2 ^ 31) ≤ a) (h2 : a < 2 ^ 31) :
    Json.asI64 (.num (.int a)) = some a := by
  show (if -(2 ^ 63) ≤ a ∧ a < 2 ^ 63 then some a else none) = some a
  rw [if_pos ⟨by omega, by omega⟩]

/-- Looking a key up after mapping a function over the values. -/
theorem lookup_map_value {β : Type} (f : Json → β) (fields : List (String × Json)) (k : String) :
    (fields.map fun kv => (kv.1, f kv.2)).lookup k = (fields.lookup k).map f := by
  induction fields with
  | nil => rfl
  | cons kv rest ih =>
      obtain ⟨a, b⟩ := kv
      by_cases h : (k == a) = true <;> simp [List.lookup, h, ih]

/-! ## C8: health check is decided by the status code alone. -/

/-- C8: a status of exactly 200 yields a successful response with
`success = true` for any body, every non-200 status yields an error (never a
successful response), the outcome never depends on the body, and no outcome is
ever a successful response with `success = false`. -/
theorem health_check_status_only :
    (∀ body, health_check (.response 200 body) = .ok { success := true })
  ∧ (∀ status body, status ≠ 200 → ∃ e, health_check (.response status body) = .error e)
  ∧ (∀ status body body',
      health_check (.response status body) = health_check (.response status body'))
  ∧ (∀ o, health_check o ≠ .ok { success := false }) := by
  refine ⟨fun body => rfl, ?_, fun _ _ _ => rfl, ?_⟩
  · intro status body h
    refine ⟨"Healthcheck failed", ?_⟩
    simp [health_check, h]
  · intro o
    match o with
    | .failure e => simp [health_check]
    | .response status body =>
        by_cases h : status = 200 <;> simp [health_check, h]

/-- C8 witness: the theorem applied at status 200 and at status 500. -/
theorem health_check_status_only_witness :
    health_check (.response 200 "any body") = .ok { success := true }
  ∧ ∃ e, health_check (.response 500 "any body") = .error e :=
  ⟨health_check_status_only.1 "any body",
   health_check_status_only.2.1 500 "any body" (by decide)⟩

/-! ## C5: question and context are echoed from the request. -/

/-- C5: for every backend JSON document and caller-supplied question and
context, the question-answer decode returns exactly the caller-supplied
strings in the `question` and `context` fields, whatever the JSON contains. -/
theorem question_answer_echoes_request (j : Json) (question context : String) :
    ∀ r, json_to_question_answer_response j question context = .ok r →
      r.question = question ∧ r.context = context := by
  intro r hr
  simp only [json_to_question_answer_response, Except.ok.injEq] at hr
  subst hr
  exact ⟨rfl, rfl⟩

/-- C5 witness: the theorem applied to a backend document that itself carries
conflicting `question` and `context` keys. -/
theorem question_answer_echoes_request_witness :
    QuestionAnswerResponse.question
        { answer := "a", start_idx := 0, end_idx := 0, question := "caller q",
          context := "caller c", took := 0 } = "caller q"
  ∧ QuestionAnswerResponse.context
        { answer := "a", start_idx := 0, end_idx := 0, question := "caller q",
          context := "caller c", took := 0 } = "caller c" :=
  question_answer_echoes_request
    (.obj [("question", .str "backend q"), ("context", .str "backend c"), ("answer", .str "a")])
    "caller q" "caller c"
    { answer := "a", start_idx := 0, end_idx := 0, question := "caller q",
      context := "caller c", took := 0 } rfl

/-! ## C2: the decoders are total; metadata is the sole exception. -/

/-- C2: every decoder other than metadata succeeds on every JSON value,
substituting zero-value defaults (illustrated on the empty object, where every
field takes its documented default); the metadata decoder succeeds exactly on
objects. -/
theorem decoders_never_fail (j : Json) (question context : String) :
    (∃ r, json_to_embeddings_response j = .ok r)
  ∧ (∃ r, json_to_sentence_transformers_response j = .ok r)
  ∧ (∃ r, json_to_sequence_classification_response j = .ok r)
  ∧ (∃ r, json_to_token_classification_response j = .ok r)
  ∧ (∃ r, json_to_question_answer_response j question context = .ok r)
  ∧ ((∃ r, json_to_metadata_response j = .ok r) ↔ j.isObj = true)
  ∧ json_to_embeddings_response (.obj []) =
      .ok { embeddings := [], took := 0, text := "", shape := none }
  ∧ json_to_sequence_classification_response (.obj []) =
      .ok { text := "", logits := [], took := 0, shape := none }
  ∧ json_to_token_classification_response (.obj []) =
      .ok { took := 0, text := "", entities := [], shape := none }
  ∧ json_to_question_answer_response (.obj []) question context =
      .ok { answer := "", start_idx := 0, end_idx := 0, question := question,
            context := context, took := 0 } := by
  refine ⟨⟨_, rfl⟩, ⟨_, rfl⟩, ⟨_, rfl⟩, ⟨_, rfl⟩, ⟨_, rfl⟩, ?_, rfl, rfl, rfl, rfl⟩
  constructor
  · rintro ⟨r, hr⟩
    match j with
    | .obj fields => rfl
    | .null | .bool _ | .num _ | .str _ | .arr _ => simp [json_to_metadata_response] at hr
  · intro h
    match j with
    | .obj fields => exact ⟨_, rfl⟩

/-! ## C1: the embeddings decode zero-fills non-numeric entries. -/

/-- C1 counterexample: on the document with `outputs` equal to `[[1, "x"]]`
the inner array has one numeric entry among two, yet the decoded Embedding has
two values — the non-numeric entry became the 0.0 default instead of being
filtered out, so the claimed "exactly k values for k numeric entries" fails. -/
theorem embeddings_filter_counterexample :
    json_to_embeddings_response (.obj [("outputs", .arr [.arr [.num (.int 1), .str "x"]])]) =
      .ok { embeddings := [{ values := [.int 1, f64Default] }], took := 0, text := "",
            shape := none }
  ∧ ([JNum.int 1, f64Default] : List JNum).length = 2
  ∧ ([JNum.int 1, f64Default] : List JNum) ≠ [JNum.int 1] :=
  ⟨rfl, rfl, by decide⟩

/-- C1 (amended): for a document whose `outputs` is an array, both embedding
decoders produce one Embedding per inner element; for an inner array the
values sequence has exactly one entry per element of the inner array, in
order — numeric entries are carried over (coerced to 32-bit float) and
non-numeric entries are replaced by the 0.0 default (zero-filled, not
filtered), so an inner array with n entries always yields exactly n values. -/
theorem embeddings_values_zero_filled (j : Json) (rows : List Json)
    (h : j.get "outputs" = some (.arr rows)) :
    (∀ r, json_to_embeddings_response j = .ok r → r.embeddings = rows.map json_to_embedding)
  ∧ (∀ r, json_to_sentence_transformers_response j = .ok r →
      r.embeddings = rows.map json_to_embedding)
  ∧ ∀ l : List Json,
      (json_to_embedding (.arr l)).values.length = l.length
    ∧ (∀ (i : Nat) (n : JNum), l[i]? = some (.num n) →
        (json_to_embedding (.arr l)).values[i]? = some n)
    ∧ (∀ (i : Nat) (x : Json), l[i]? = some x → x.asF64 = none →
        (json_to_embedding (.arr l)).values[i]? = some f64Default) := by
  refine ⟨?_, ?_, ?_⟩
  · intro r hr
    simp only [json_to_embeddings_response, Except.ok.injEq] at hr
    subst hr
    simp [h, Json.asArray]
  · intro r hr
    simp only [json_to_sentence_transformers_response, Except.ok.injEq] at hr
    subst hr
    simp [h, Json.asArray]
  · intro l
    refine ⟨by simp [json_to_embedding, Json.asArray], ?_, ?_⟩
    · intro i n hi
      simp [json_to_embedding, Json.asArray, List.getElem?_map, hi, Json.asF64]
    · intro i x hi hx
      simp [json_to_embedding, Json.asArray, List.getElem?_map, hi, hx]

/-- C1 witness: the amended theorem applied to `outputs` equal to `[[1, "x"]]`
gives an Embedding with as many values as the inner array has entries. -/
theorem embeddings_values_zero_filled_witness :
    (json_to_embedding (.arr [.num (.int 1), .str "x"])).values.length =
      ([Json.num (.int 1), Json.str "x"] : List Json).length :=
  ((embeddings_values_zero_filled
      (.obj [("outputs", .arr [.arr [.num (.int 1), .str "x"]])])
      [.arr [.num (.int 1), .str "x"]] rfl).2.2
    [.num (.int 1), .str "x"]).1

/-! ## C10: one Embedding per `outputs` element, empty for non-arrays. -/

/-- C10: when `outputs` is an array, both embedding decoders produce exactly
one Embedding per element of the array, and a non-array element (number,
string, boolean, null or object) is not skipped — it contributes an Embedding
with an empty values sequence. -/
theorem embeddings_one_per_output (j : Json) (rows : List Json)
    (h : j.get "outputs" = some (.arr rows)) :
    (∀ r, json_to_embeddings_response j = .ok r →
        r.embeddings.length = rows.length
      ∧ ∀ (i : Nat) (x : Json), rows[i]? = some x → x.asArray = none →
          r.embeddings[i]? = some { values := [] })
  ∧ (∀ r, json_to_sentence_transformers_response j = .ok r →
        r.embeddings.length = rows.length
      ∧ ∀ (i : Nat) (x : Json), rows[i]? = some x → x.asArray = none →
          r.embeddings[i]? = some { values := [] }) := by
  constructor
  · intro r hr
    simp only [json_to_embeddings_response, Except.ok.injEq] at hr
    subst hr
    refine ⟨by simp [h, Json.asArray], ?_⟩
    intro i x hi hx
    have hrows : ((j.get "outputs").bind Json.asArray).getD [] = rows := by
      simp [h, Json.asArray]
    simp [hrows, List.getElem?_map, hi, json_to_embedding, hx]
  · intro r hr
    simp only [json_to_sentence_transformers_response, Except.ok.injEq] at hr
    subst hr
    refine ⟨by simp [h, Json.asArray], ?_⟩
    intro i x hi hx
    have hrows : ((j.get "outputs").bind Json.asArray).getD [] = rows := by
      simp [h, Json.asArray]
    simp [hrows, List.getElem?_map, hi, json_to_embedding, hx]

/-- C10 witness: the theorem applied to an `outputs` array holding a number, a
string, a boolean, null and an object — five elements, five Embeddings. -/
theorem embeddings_one_per_output_witness :
    (EmbeddingsResponse.embeddings
        { embeddings := [{ values := [] }, { values := [] }, { values := [] },
            { values := [] }, { values := [] }],
          took := 0, text := "", shape := none }).length =
      ([Json.num (.int 5), Json.str "a", Json.bool true, Json.null, Json.obj []] :
        List Json).length :=
  ((embeddings_one_per_output
      (.obj [("outputs",
        .arr [.num (.int 5), .str "a", .bool true, .null, .obj []])])
      [.num (.int 5), .str "a", .bool true, .null, .obj []] rfl).1
    { embeddings := [{ values := [] }, { values := [] }, { values := [] },
        { values := [] }, { values := [] }],
      took := 0, text := "", shape := none } rfl).1

/-! ## C3: row-major flattening of the sequence-classification logits. -/

/-- Re-nesting a flat sequence by a list of row lengths. -/
def reNest : List Nat → List JNum → List (List JNum)
  | [], _ => []
  | n :: ns, xs => xs.take n :: reNest ns (xs.drop n)

/-- Re-nesting a flattening by the original row lengths recovers the rows. -/
theorem reNest_flatten (nss : List (List JNum)) :
    reNest (nss.map List.length) nss.flatten = nss := by
  induction nss with
  | nil => rfl
  | cons ns rest ih =>
      simp only [List.map_cons, List.flatten_cons, reNest, List.take_left, List.drop_left, ih]

/-- The logits flattening distributes over cons. -/
theorem flatten_logits_cons (x : Json) (rows : List Json) :
    flatten_logits (x :: rows) =
      ((x.asArray).getD []).map (fun v => (v.asF64).getD f64Default) ++ flatten_logits rows := by
  simp [flatten_logits]

/-- Elements of the `logits` array that are not arrays contribute nothing. -/
theorem flatten_logits_skips_non_arrays (rows : List Json) :
    flatten_logits rows = flatten_logits (rows.filter fun x => (x.asArray).isSome) := by
  induction rows with
  | nil => rfl
  | cons x rest ih =>
      cases hx : x.asArray with
      | none => simp [flatten_logits_cons, List.filter_cons, hx, ih]
      | some l => simp [flatten_logits_cons, List.filter_cons, hx, ← ih]

/-- C3: when `logits` is a 2-D numeric array (an array of rows of numbers),
the decoded flat logits sequence is the row-major flattening of the rows
(outer index slower, inner faster), and re-nesting the flat sequence by the
original row lengths recovers the nested structure in exact element order;
in general non-array elements of the `logits` array contribute no elements. -/
theorem sequence_classification_row_major (j : Json) (nss : List (List JNum))
    (h : j.get "logits" = some (.arr (nss.map fun ns => Json.arr (ns.map Json.num)))) :
    (∀ r, json_to_sequence_classification_response j = .ok r →
        r.logits = nss.flatten
      ∧ reNest (nss.map List.length) r.logits = nss)
  ∧ ∀ rows : List Json,
      flatten_logits rows = flatten_logits (rows.filter fun x => (x.asArray).isSome) := by
  constructor
  · intro r hr
    simp only [json_to_sequence_classification_response, Except.ok.injEq] at hr
    subst hr
    have hrows : ((j.get "logits").bind Json.asArray).getD []
        = nss.map fun ns => Json.arr (ns.map Json.num) := by
      simp [h, Json.asArray]
    have hlog : flatten_logits (((j.get "logits").bind Json.asArray).getD [])
        = nss.flatten := by
      rw [hrows]
      simp [flatten_logits, List.map_map, Function.comp_def, Json.asArray, Json.asF64,
        List.map_flatten]
    refine ⟨hlog, ?_⟩
    show reNest (nss.map List.length)
      (flatten_logits (((j.get "logits").bind Json.asArray).getD [])) = nss
    rw [hlog]
    exact reNest_flatten nss
  · exact flatten_logits_skips_non_arrays

/-- C3 witness: the theorem applied to `logits` equal to `[[1, 2], [3]]`. -/
theorem sequence_classification_row_major_witness :
    SequenceClassificationResponse.logits
        { text := "", logits := [JNum.int 1, JNum.int 2, JNum.int 3], took := 0,
          shape := none } =
      List.flatten [[JNum.int 1, JNum.int 2], [JNum.int 3]] :=
  ((sequence_classification_row_major
      (.obj [("logits", .arr [.arr [.num (.int 1), .num (.int 2)], .arr [.num (.int 3)]])])
      [[JNum.int 1, JNum.int 2], [JNum.int 3]] rfl).1
    { text := "", logits := [JNum.int 1, JNum.int 2, JNum.int 3], took := 0,
      shape := none } rfl).1

/-! ## C6: metadata value rendering. -/

/-- C6: for a top-level object, each key maps to the string form of its value:
a string value passes through verbatim (its unescaped content, without
quotes), an array value is serialized compactly with no space after commas
(the compact rendering with every comma-space collapsed to a bare comma), and
every other value type — number, boolean, null, object — is rendered via its
default compact textual JSON form. -/
theorem metadata_value_rendering (fields : List (String × Json)) (k : String) (v : Json)
    (hlk : fields.lookup k = some v) :
    ∀ r, json_to_metadata_response (.obj fields) = .ok r →
      (∀ s, v = .str s → r.metadata.lookup k = some s)
    ∧ (v.isArr = true → r.metadata.lookup k = some (replaceCommaSpace (serialize v)))
    ∧ (v.isArr = false → v.isStr = false → r.metadata.lookup k = some (serialize v)) := by
  intro r hr
  simp only [json_to_metadata_response, Except.ok.injEq] at hr
  subst hr
  have hl : (fields.map fun kv => (kv.1, metadata_value_string kv.2)).lookup k
      = some (metadata_value_string v) := by
    rw [lookup_map_value, hlk]
    rfl
  refine ⟨?_, ?_, ?_⟩
  · intro s hs
    subst hs
    simpa [metadata_value_string, Json.isArr, Json.isStr, Json.asStr] using hl
  · intro ha
    simpa [metadata_value_string, ha] using hl
  · intro ha hs
    simpa [metadata_value_string, ha, hs] using hl

/-- C6 witness: the theorem applied to an object holding a string, an array
(whose first element's text itself contains a comma-space, collapsed by the
rendering) and a number. -/
theorem metadata_value_rendering_witness :
    ([("name", "x"), ("names", "[\"a,b\",3]"), ("n", "7")] :
        List (String × String)).lookup "names"
      = some (replaceCommaSpace (serialize (.arr [.str "a, b", .num (.int 3)])))
  ∧ replaceCommaSpace (serialize (.arr [.str "a, b", .num (.int 3)])) = "[\"a,b\",3]" :=
  ⟨((metadata_value_rendering
      [("name", .str "x"), ("names", .arr [.str "a, b", .num (.int 3)]),
        ("n", .num (.int 7))]
      "names" (.arr [.str "a, b", .num (.int 3)]) rfl
      { metadata := [("name", "x"), ("names", "[\"a,b\",3]"), ("n", "7")] } rfl).2.1) rfl,
   rfl⟩

/-! ## C7: entity offsets. -/

/-- The wrapping cast maps zero to zero. -/
theorem toI32_zero : toI32 0 = 0 := rfl

/-- C7 counterexample: for `offsets` equal to `[2147483648, 7]` — integer
entries a = 2^31 and b = 7 — the decoded start_offset is the wrapped value
-2147483648, not a; the end side still reads 7. -/
theorem entity_offsets_counterexample :
    (json_to_entity (.obj [("offsets",
        .arr [.num (.int 2147483648), .num (.int 7)])])).start_offset = -2147483648
  ∧ (json_to_entity (.obj [("offsets",
        .arr [.num (.int 2147483648), .num (.int 7)])])).end_offset = 7
  ∧ ((-2147483648 : Int) ≠ 2147483648) :=
  ⟨rfl, rfl, by decide⟩

/-- C7 (amended): with `offsets` an array, each side is extracted from its own
index alone — index 0 for start, index 1 for end — read as i64 and reduced by
the wrapping 32-bit cast, hence equal to the element whenever it lies in
[-2^31, 2^31); each side defaults to 0 independently when the array is too
short or the element at that index is not an i64 integer, and both sides are 0
when the `offsets` key is absent or not an array. A defect at one index never
affects the other side. -/
theorem entity_offsets_independent (v : Json) :
    (∀ l, v.get "offsets" = some (.arr l) →
        (json_to_entity v).start_offset = toI32 (((l[0]?).bind Json.asI64).getD 0)
      ∧ (json_to_entity v).end_offset = toI32 (((l[1]?).bind Json.asI64).getD 0)
      ∧ (∀ a, l[0]? = some (.num (.int a)) → -(2 ^ 31) ≤ a → a < 2 ^ 31 →
          (json_to_entity v).start_offset = a)
      ∧ (∀ b, l[1]? = some (.num (.int b)) → -(2 ^ 31) ≤ b → b < 2 ^ 31 →
          (json_to_entity v).end_offset = b)
      ∧ ((l[0]?).bind Json.asI64 = none → (json_to_entity v).start_offset = 0)
      ∧ ((l[1]?).bind Json.asI64 = none → (json_to_entity v).end_offset = 0))
  ∧ ((v.get "offsets").bind Json.asArray = none →
      (json_to_entity v).start_offset = 0 ∧ (json_to_entity v).end_offset = 0) := by
  constructor
  · intro l hl
    have h0 : (json_to_entity v).start_offset = toI32 (((l[0]?).bind Json.asI64).getD 0) := by
      simp [json_to_entity, hl, Json.asArray]
    have h1 : (json_to_entity v).end_offset = toI32 (((l[1]?).bind Json.asI64).getD 0) := by
      simp [json_to_entity, hl, Json.asArray]
    refine ⟨h0, h1, ?_, ?_, ?_, ?_⟩
    · intro a ha ha1 ha2
      rw [h0, ha]
      simp [asI64_int_of_small ha1 ha2, toI32_eq_self ha1 ha2]
    · intro b hb hb1 hb2
      rw [h1, hb]
      simp [asI64_int_of_small hb1 hb2, toI32_eq_self hb1 hb2]
    · intro hnone
      rw [h0, hnone]
      rfl
    · intro hnone
      rw [h1, hnone]
      rfl
  · intro hno
    cases ho : v.get "offsets" with
    | none => exact ⟨by simp [json_to_entity, ho, toI32_zero], by simp [json_to_entity, ho, toI32_zero]⟩
    | some o =>
        rw [ho, Option.some_bind] at hno
        exact ⟨by simp [json_to_entity, ho, hno, toI32_zero],
          by simp [json_to_entity, ho, hno, toI32_zero]⟩

/-- C7 witness: the theorem applied to `offsets` equal to `[3, 7]`. -/
theorem entity_offsets_independent_witness :
    (json_to_entity (.obj [("offsets", .arr [.num (.int 3), .num (.int 7)])])).start_offset = 3
  ∧ (json_to_entity (.obj [("offsets", .arr [.num (.int 3), .num (.int 7)])])).end_offset = 7 := by
  have h := (entity_offsets_independent
    (.obj [("offsets", .arr [.num (.int 3), .num (.int 7)])])).1
    [.num (.int 3), .num (.int 7)] rfl
  exact ⟨h.2.2.1 3 rfl (by decide) (by decide), h.2.2.2.1 7 rfl (by decide) (by decide)⟩

/-! ## C9: the shared shape decode. -/

/-- C9 counterexample: for `shape` equal to `[2147483648, 3]`, the integer
element at index 0 is 2^31, yet dim1 is the wrapped value -2147483648 —
neither the element itself nor the default 0. -/
theorem extract_shape_counterexample :
    extract_shape (.obj [("shape", .arr [.num (.int 2147483648), .num (.int 3)])])
      = some { dim1 := -2147483648, dim2 := 3 }
  ∧ ((-2147483648 : Int) ≠ 2147483648 ∧ (-2147483648 : Int) ≠ 0) :=
  ⟨rfl, by decide, by decide⟩

/-- C9 (amended): the shape decode is absent exactly when the `shape` key is
missing or its value is not an array; on any array — empty, short, or with
non-integer elements — it returns a Shape whose dims come from indices 0 and 1
independently: the i64 element reduced by the wrapping 32-bit cast (hence
equal to the element whenever it lies in [-2^31, 2^31)), and 0 when the index
is missing or the element is not an i64 integer. -/
theorem extract_shape_spec (j : Json) :
    ((extract_shape j).isSome ↔ ∃ l, j.get "shape" = some (Json.arr l))
  ∧ ∀ l, j.get "shape" = some (Json.arr l) →
      extract_shape j = some
        { dim1 := toI32 (((l[0]?).bind Json.asI64).getD 0)
          dim2 := toI32 (((l[1]?).bind Json.asI64).getD 0) }
    ∧ (∀ a, l[0]? = some (.num (.int a)) → -(2 ^ 31) ≤ a → a < 2 ^ 31 →
        ∀ s, extract_shape j = some s → s.dim1 = a)
    ∧ (∀ b, l[1]? = some (.num (.int b)) → -(2 ^ 31) ≤ b → b < 2 ^ 31 →
        ∀ s, extract_shape j = some s → s.dim2 = b)
    ∧ ((l[0]?).bind Json.asI64 = none → ∀ s, extract_shape j = some s → s.dim1 = 0)
    ∧ ((l[1]?).bind Json.asI64 = none → ∀ s, extract_shape j = some s → s.dim2 = 0) := by
  constructor
  · constructor
    · intro hs
      cases hg : j.get "shape" with
      | none => simp [extract_shape, hg] at hs
      | some x =>
          cases x with
          | arr l => exact ⟨l, rfl⟩
          | null => simp [extract_shape, hg, Json.asArray] at hs
          | bool b => simp [extract_shape, hg, Json.asArray] at hs
          | num n => simp [extract_shape, hg, Json.asArray] at hs
          | str s => simp [extract_shape, hg, Json.asArray] at hs
          | obj fs => simp [extract_shape, hg, Json.asArray] at hs
    · rintro ⟨l, hl⟩
      simp [extract_shape, hl, Json.asArray]
  · intro l hl
    have he : extract_shape j = some
        { dim1 := toI32 (((l[0]?).bind Json.asI64).getD 0)
          dim2 := toI32 (((l[1]?).bind Json.asI64).getD 0) } := by
      simp [extract_shape, hl, Json.asArray]
    refine ⟨he, ?_, ?_, ?_, ?_⟩
    · intro a ha ha1 ha2 s hs
      rw [he, Option.some.injEq] at hs
      subst hs
      simp [ha, asI64_int_of_small ha1 ha2, toI32_eq_self ha1 ha2]
    · intro b hb hb1 hb2 s hs
      rw [he, Option.some.injEq] at hs
      subst hs
      simp [hb, asI64_int_of_small hb1 hb2, toI32_eq_self hb1 hb2]
    · intro hnone s hs
      rw [he, Option.some.injEq] at hs
      subst hs
      simp [hnone, toI32_zero]
    · intro hnone s hs
      rw [he, Option.some.injEq] at hs
      subst hs
      simp [hnone, toI32_zero]

/-- C9 witness: the theorem applied to `shape` equal to `[1, 3]`. -/
theorem extract_shape_spec_witness :
    Shape.dim1 { dim1 := 1, dim2 := 3 } = 1 ∧ Shape.dim2 { dim1 := 1, dim2 := 3 } = 3 := by
  have h := (extract_shape_spec
    (.obj [("shape", .arr [.num (.int 1), .num (.int 3)])])).2
    [.num (.int 1), .num (.int 3)] rfl
  exact ⟨h.2.1 1 rfl (by decide) (by decide) { dim1 := 1, dim2 := 3 } rfl,
         h.2.2.1 3 rfl (by decide) (by decide) { dim1 := 1, dim2 := 3 } rfl⟩

/-! ## C4: URL building interpolates raw strings, with no percent-encoding. -/

/-- C4 counterexample: the URLs built for request strings containing '&', '#'
or a space carry the raw string, not its percent-encoded form. -/
theorem url_building_counterexample :
    embeddings_url "http://h" "a&b" = "http://h/embeddings?text=a&b"
  ∧ percentEncode "a&b" = "a%26b"
  ∧ embeddings_url "http://h" "a&b" ≠
      "http://h" ++ "/embeddings?text=" ++ percentEncode "a&b"
  ∧ question_answering_url "http://h" "q 1" "c#2" =
      "http://h/question-answering?question=q 1&context=c#2"
  ∧ question_answering_url "http://h" "q 1" "c#2" ≠
      "http://h" ++ "/question-answering?question=" ++ percentEncode "q 1" ++
        "&context=" ++ percentEncode "c#2" :=
  ⟨rfl, rfl, by decide, rfl, by decide⟩

/-- C4 (amended): every operation's GET URL is the base URL, the operation's
fixed path segment, and — where the operation takes parameters — the raw
request strings interpolated verbatim into the query component with no
percent-encoding, so a string containing '&', '#', spaces or non-ASCII is
carried unencoded rather than as its percent-encoded form. -/
theorem url_building_verbatim (base_url text question context : String) :
    embeddings_url base_url text = base_url ++ "/embeddings?text=" ++ text
  ∧ sentence_transformers_url base_url text =
      base_url ++ "/sentence-transformers?text=" ++ text
  ∧ sequence_classification_url base_url text =
      base_url ++ "/sequence-classification?text=" ++ text
  ∧ token_classification_url base_url text =
      base_url ++ "/token-classification?text=" ++ text
  ∧ question_answering_url base_url question context =
      base_url ++ "/question-answering?question=" ++ question ++ "&context=" ++ context
  ∧ healthcheck_url base_url = base_url ++ "/healthcheck"
  ∧ metadata_url base_url = base_url ++ "/metadata"
  ∧ ∀ b, embeddings_url b "a&b" ≠ b ++ "/embeddings?text=" ++ percentEncode "a&b" := by
  refine ⟨rfl, rfl, rfl, rfl, rfl, rfl, rfl, ?_⟩
  intro b h
  have hlen := congrArg String.length h
  rw [show percentEncode "a&b" = "a%26b" from rfl] at hlen
  simp only [embeddings_url, String.length_append] at hlen
  have e1 : ("a&b" : String).length = 3 := rfl
  have e2 : ("a%26b" : String).length = 5 := rfl
  omega

/-- C4 witness: the amended theorem applied at a concrete base URL and a text
containing a space. -/
theorem url_building_verbatim_witness :
    embeddings_url "http://h" "hello world" =
      "http://h" ++ "/embeddings?text=" ++ "hello world" :=
  (url_building_verbatim "http://h" "hello world" "q" "c").1
